import Mathlib

set_option maxRecDepth 10000

/-!
Verification of the db_PhotoFrame3.5 photo-frame application against its
natural-language specification.

The development shallowly embeds the parts of the Python source that the
specification talks about:

* `src/lib/lcd/serialize.py` — the pixel codecs (RGB565 and compressed BGRA);
* `src/lib/display.py`       — the frame compositor `_prepare_image_for_display`,
  the overlay renderer `_add_text_overlay`, and the `display_image` /
  `display_image_with_overlay` entry points;
* `src/lib/photoframe.py`    — the slideshow driver (playlist loading, the
  background loop, start/stop) together with the call into
  `src/lib/config_manager.py`;
* `src/lib/photo_frame.py`   — the legacy scaling routine
  `scale_image_to_screen` with its EXIF handling.

Machine integers are modelled as `Nat` (Python ints are unbounded; the pixel
channels are bytes and the relevant bounds appear as hypotheses).  Python
`try/except` blocks around external PIL operations are modelled by explicit
boolean failure flags: a flag set means the guarded operation raised, and the
embedded definition follows the source's `except` path.  PIL images are
modelled by a small term algebra that records the geometric operations the
source performs, together with a `dims` function giving the resulting pixel
dimensions.
-/

/-! ## Pixel codec: `src/lib/lcd/serialize.py` -/

namespace Serialize

/-- The 16-bit RGB565 value of one pixel, from `image_to_RGB565`
(serialize.py lines 20-26): each 8-bit channel is quantized by
`channel * max_value // 255` and the fields are packed as
`(r5 << 11) | (g6 << 5) | b5`. -/
def rgb565Value (r g b : Nat) : Nat :=
  let r5 := r * 31 / 255
  let g6 := g * 63 / 255
  let b5 := b * 31 / 255
  (r5 <<< 11) ||| (g6 <<< 5) ||| b5

/-- The two output bytes of one pixel, from serialize.py lines 28-33:
little-endian emits the low byte first, big-endian the high byte first. -/
def rgb565PixelBytes (endianness : String) (r g b : Nat) : List Nat :=
  let value := rgb565Value r g b
  if endianness = "little" then
    [value &&& 0xFF, (value >>> 8) &&& 0xFF]
  else
    [(value >>> 8) &&& 0xFF, value &&& 0xFF]

/-- `image_to_RGB565` (serialize.py lines 12-35).  The PIL image is modelled
by its row-major sequence of RGB pixels (the `convert('RGB')` normalisation
is the identity on that sequence); the `for (r, g, b) in pixels` loop
appending two bytes per pixel becomes structural recursion. -/
def image_to_RGB565 : List (Nat × Nat × Nat) → String → List Nat
  | [], _ => []
  | (r, g, b) :: ps, endianness =>
      rgb565PixelBytes endianness r g b ++ image_to_RGB565 ps endianness

/-- The three output bytes of one pixel of `image_to_compressed_BGRA`
(serialize.py lines 75-80), for `pixel = (r, g, b, a)`:
`a4 = a >> 4`, then bytes `b & 0xFC | a4 >> 2`, `g & 0xFC | a4 & 2`, `r`. -/
def compressedBGRAPixelBytes (r g b a : Nat) : List Nat :=
  let a4 := a >>> 4
  [(b &&& 0xFC) ||| (a4 >>> 2), (g &&& 0xFC) ||| (a4 &&& 2), r]

/-- `image_to_compressed_BGRA` (serialize.py lines 70-81).  The nested
`for h / for w` traversal of `image.load()` is the row-major pixel sequence,
modelled as a list of RGBA quadruples. -/
def image_to_compressed_BGRA : List (Nat × Nat × Nat × Nat) → List Nat
  | [] => []
  | (r, g, b, a) :: ps => compressedBGRAPixelBytes r g b a ++ image_to_compressed_BGRA ps

/-- The per-pixel packing that the specification describes for the compressed
BGRA codec: the second byte keeps the top 6 bits of G plus the LOW TWO of the
four alpha bits (mask `& 3`).  This definition follows the spec's words, to be
compared against `compressedBGRAPixelBytes`, which follows the source. -/
def compressedBGRAPixelBytesSpec (r g b a : Nat) : List Nat :=
  let a4 := a >>> 4
  [(b &&& 0xFC) ||| (a4 >>> 2), (g &&& 0xFC) ||| (a4 &&& 3), r]

/-- The 16-bit RGB565 value as the specification words it, in plain
arithmetic: the three truncating quantizations placed at bit offsets 11, 5
and 0 of a 16-bit word.  To be compared with `rgb565Value`, which uses the
source's shift-and-or packing. -/
def rgb565SpecValue (r g b : Nat) : Nat :=
  (r * 31 / 255) * 2 ^ 11 + (g * 63 / 255) * 2 ^ 5 + (b * 31 / 255)

end Serialize

/-! ## Frame compositor: `src/lib/display.py` -/

namespace Display

/-- A PIL image, modelled by the term algebra of the geometric operations the
source performs on it.  `src` is the decoded source bitmap with its pixel
dimensions; the other constructors record the transformation pipeline. -/
inductive PImage where
  /-- a decoded source bitmap of the given size -/
  | src (w h : Nat)
  /-- `img.rotate(deg, expand=True)` for 90/270, `img.rotate(180)` for 180 -/
  | rotate (deg : Nat) (img : PImage)
  /-- `img.resize((w, h), Image.Resampling.LANCZOS)` -/
  | resize (w h : Nat) (img : PImage)
  /-- black `Image.new('RGB', (w, h))` canvas with `img` pasted at `(ox, oy)` -/
  | letterbox (w h ox oy : Nat) (img : PImage)
  /-- the text overlay of `_add_text_overlay` alpha-composited onto `img` -/
  | overlaid (img : PImage) (texts : List String) (orientation : String)
  deriving DecidableEq, Repr

/-- Pixel dimensions of a modelled image.  Rotation by 90 or 270 with
`expand=True` swaps width and height; rotation by 180 keeps them. -/
def dims : PImage → Nat × Nat
  | .src w h => (w, h)
  | .rotate deg img => if deg % 180 = 90 then ((dims img).2, (dims img).1) else dims img
  | .resize w h _ => (w, h)
  | .letterbox w h _ _ _ => (w, h)
  | .overlaid img _ _ => dims img

/-- Failure flags for the `try/except` blocks of `_prepare_image_for_display`
(display.py lines 407-496).  A set flag means the guarded PIL operation
raised and the source's `except` path is taken. -/
structure PrepFlags where
  /-- the `img.rotate` call at line 443 raises (caught at line 444) -/
  rotateFails : Bool
  /-- the resize/compose block of lines 449-480 raises (caught at line 481) -/
  mainFails : Bool
  /-- the fallback `image.resize` at line 485 raises (caught at line 489) -/
  fallbackFails : Bool
  deriving DecidableEq, Repr

/-- All guarded operations succeed. -/
def noFail : PrepFlags := ⟨false, false, false⟩

/-- The letterbox size computed in the portrait branch (display.py lines
461-464): `scale = min(target_w / src_w, target_h / src_h)` and
`new = max(1, int(src * scale))`.  Python float arithmetic is modelled by
exact rational arithmetic with truncation; the claims under verification do
not depend on these two numbers. -/
def scaledSize (sw sh tw th : Nat) : Nat × Nat :=
  if tw * sh ≤ th * sw then (max 1 tw, max 1 (sh * tw / sw))
  else (max 1 (sw * th / sh), max 1 th)

/-- `LCDDisplay._prepare_image_for_display` (display.py lines 407-496).
`orientation` and `inverse` are the instance attributes `frame_orientation`
and `inverse`; `image` is the function argument.

Source structure mirrored here:
* lines 424-427: target size is `(480, 320)` for Landscape, else `(320, 480)`;
* lines 430-438: rotate 90 for Portrait when the source is wider than tall,
  always 270 otherwise (Landscape);
* lines 440-445: the rotation is attempted only when the degree is nonzero,
  and a raising rotate leaves the image unrotated;
* lines 449-458: Landscape force-resizes to the target and applies the 180
  inverse flip;
* lines 460-480: Portrait letterboxes onto a black target-size canvas and
  applies the inverse flip;
* lines 481-490: if the resize/compose block raises, fall back to a plain
  resize of the original argument (with inverse flip); if that also raises,
  return the original image untouched.
The outer `except` of line 491 is unreachable: every statement under the
outer `try` that can raise is already inside one of the inner guards. -/
def prepare_image_for_display (orientation : String) (inverse : Bool)
    (f : PrepFlags) (image : PImage) : PImage :=
  let tw := if orientation = "Landscape" then 480 else 320
  let th := if orientation = "Landscape" then 320 else 480
  let deg : Nat :=
    if orientation = "Portrait" then
      (if (dims image).1 > (dims image).2 then 90 else 0)
    else 270
  let img := if deg ≠ 0 ∧ f.rotateFails = false then PImage.rotate deg image else image
  if f.mainFails then
    if f.fallbackFails then image
    else
      let fb := PImage.resize tw th image
      if inverse then PImage.rotate 180 fb else fb
  else if orientation = "Landscape" then
    let final := PImage.resize tw th img
    if inverse then PImage.rotate 180 final else final
  else
    let s := dims img
    let n := scaledSize s.1 s.2 tw th
    let final := PImage.letterbox tw th ((tw - n.1) / 2) ((th - n.2) / 2)
      (PImage.resize n.1 n.2 img)
    if inverse then PImage.rotate 180 final else final

/-- The preparation of `prepare_image_for_display` as claim C2 describes it
for Landscape: rotate 270 and then force-resize to the portrait-style canvas
`(320, 480)`.  Follows the spec's words, to be compared with the source. -/
def prepareLandscapeSpec (inverse : Bool) (image : PImage) : PImage :=
  let final := PImage.resize 320 480 (PImage.rotate 270 image)
  if inverse then PImage.rotate 180 final else final

/-! ## Overlay renderer: `src/lib/display.py` lines 142-149 and 325-365 -/

/-- `LCDDisplay._prepare_overlay_texts` (display.py lines 142-149): the time
string is included only when `show_time` is set; the date branch was removed
from the source, so `show_date` contributes nothing. -/
def prepare_overlay_texts (show_time show_date : Bool) (timeStr : String) :
    List String :=
  if show_time then [timeStr] else []

/-- Failure flag for the one `try/except` of `_add_text_overlay` whose
`except` path changes the returned image: the alpha-compositing block at
display.py lines 355-365 (`except` returns the input image).  The other
guarded operations inside the overlay code (font loading at lines 134-140,
`rounded_rectangle` at 184-187 and 225-229, the box rotation at 204-207)
fall back to a variant of the same drawing and only affect the overlay
content, which the model abstracts into the `overlaid` constructor. -/
structure OverlayFlags where
  /-- the `convert` / `alpha_composite` block at lines 355-362 raises -/
  compositeFails : Bool
  deriving DecidableEq, Repr

/-- `LCDDisplay._add_text_overlay` (display.py lines 325-365).  All fallible
PIL operations in the source are wrapped in `try/except` with local
fallbacks, so the embedding is a total function: the renderer never
propagates an exception.  When the text list is empty the input image is
returned unmodified (line 337-338). -/
def add_text_overlay (f : OverlayFlags) (orientation : String)
    (show_time show_date : Bool) (timeStr : String) (image : PImage) : PImage :=
  let texts := prepare_overlay_texts show_time show_date timeStr
  if texts = [] then image
  else if f.compositeFails then image
  else PImage.overlaid image texts orientation

/-! ## Display entry points: `src/lib/display.py` lines 92-130 and 291-323 -/

/-- Externally visible actions of the display pipeline, used to state that
the uninitialized display contacts nothing. -/
inductive Effect where
  /-- `Image.open(image_path)` -/
  | openImage (path : String)
  /-- `self.lcd.DisplayPILImage(...)` with the final frame and size -/
  | sendFrame (img : PImage) (w h : Nat)
  /-- `image.save(temp_path)` for the bitmap fallback -/
  | saveTemp
  /-- `self.lcd.DisplayBitmap(temp_path, 0, 0)` -/
  | sendBitmap
  /-- `os.remove(temp_path)` -/
  | removeTemp
  deriving DecidableEq, Repr

/-- Failure flags for the `try/except` blocks of `display_image` and
`display_image_with_overlay`. -/
structure SendFlags where
  /-- `Image.open` at line 100 / 298 raises -/
  openFails : Bool
  /-- `DisplayPILImage` raises, taking the bitmap fallback -/
  pilSendFails : Bool
  /-- the fallback `DisplayBitmap` raises as well -/
  bitmapFails : Bool
  deriving DecidableEq, Repr

/-- `LCDDisplay.display_image` (display.py lines 92-130), returning the
boolean result together with the trace of external actions.  `lcdConnected`
models `self.lcd` being set by a successful `initialize`; `lcdW`/`lcdH` are
the sink's reported width and height. -/
def display_image (lcdConnected : Bool) (orientation : String) (inverse : Bool)
    (pf : PrepFlags) (sf : SendFlags) (lcdW lcdH : Nat) (path : String)
    (img : PImage) : Bool × List Effect :=
  if lcdConnected = false then (false, [])
  else if sf.openFails then (false, [Effect.openImage path])
  else
    let prepared := prepare_image_for_display orientation inverse pf img
    let sized := if dims prepared ≠ (lcdW, lcdH) then PImage.resize lcdW lcdH prepared
      else prepared
    if sf.pilSendFails = false then
      (true, [Effect.openImage path, Effect.sendFrame sized lcdW lcdH])
    else if sf.bitmapFails = false then
      (true, [Effect.openImage path, Effect.saveTemp, Effect.sendBitmap,
        Effect.removeTemp])
    else
      (false, [Effect.openImage path, Effect.saveTemp, Effect.sendBitmap,
        Effect.removeTemp])

/-- `LCDDisplay.display_image_with_overlay` (display.py lines 291-323): the
same gate on `self.lcd`, then open, prepare, resize to the sink size, overlay
when `show_time or show_date`, and send via `_send_image_to_lcd` (lines
245-268) with the `_fallback_bitmap_display` path (lines 270-289). -/
def display_image_with_overlay (lcdConnected : Bool) (orientation : String)
    (inverse : Bool) (pf : PrepFlags) (ovf : OverlayFlags) (sf : SendFlags)
    (lcdW lcdH : Nat) (path : String) (img : PImage)
    (show_time show_date : Bool) (timeStr : String) : Bool × List Effect :=
  if lcdConnected = false then (false, [])
  else if sf.openFails then (false, [Effect.openImage path])
  else
    let prepared := prepare_image_for_display orientation inverse pf img
    let sized := if dims prepared ≠ (lcdW, lcdH) then PImage.resize lcdW lcdH prepared
      else prepared
    let final := if show_time || show_date then
        add_text_overlay ovf orientation show_time show_date timeStr sized
      else sized
    if sf.pilSendFails = false then
      (true, [Effect.openImage path, Effect.sendFrame final lcdW lcdH])
    else if sf.bitmapFails = false then
      (true, [Effect.openImage path, Effect.saveTemp, Effect.sendBitmap,
        Effect.removeTemp])
    else
      (false, [Effect.openImage path, Effect.saveTemp, Effect.sendBitmap,
        Effect.removeTemp])

end Display

/-! ## Slideshow driver: `src/lib/photoframe.py` and `src/lib/config_manager.py` -/

namespace Slideshow

/-- The configuration keys the slideshow loop compares
(photoframe.py lines 179-184): `photos.orientation`,
`photos.portrait_folder`, `photos.landscape_folder`. -/
structure PhotosCfg where
  orientation : Option String
  portrait_folder : Option String
  landscape_folder : Option String
  deriving DecidableEq, Repr

/-- The configuration mapping as far as the slideshow driver reads it. -/
structure Cfg where
  photos : PhotosCfg
  deriving DecidableEq, Repr

/-- The parameters of `ConfigManager.load_config`
(config_manager.py line 18): `def load_config(self, force_reload=False)` —
there is no `silent` parameter. -/
def configManagerLoadConfigParams : List String := ["force_reload"]

/-- Python keyword-argument call semantics: a call whose keyword arguments
are not all among the callee's parameters raises `TypeError` before the
callee's body runs. -/
def callWithKwargs {α : Type} (params : List String) (kwargs : List String)
    (body : α) : Except String α :=
  if kwargs.all (fun k => params.contains k) then Except.ok body
  else Except.error "TypeError"

/-- The per-tick configuration re-check call of the slideshow loop
(photoframe.py line 175):
`config_manager.load_config(force_reload=True, silent=True)`.
`disk` is what the config file currently holds on disk. -/
def loopConfigCheckCall (disk : Cfg) : Except String Cfg :=
  callWithKwargs configManagerLoadConfigParams ["force_reload", "silent"] disk

/-- The change test of photoframe.py lines 178-184: orientation or either
folder differs between the in-memory and the freshly loaded config. -/
def configChanged (old fresh : Cfg) : Bool :=
  old.photos.orientation != fresh.photos.orientation
    || old.photos.portrait_folder != fresh.photos.portrait_folder
    || old.photos.landscape_folder != fresh.photos.landscape_folder

/-- The mutable state of a `PhotoFrame` instance (photoframe.py lines 25-30):
`running`, `current_images`, `current_index`, the in-memory `config`, the
`_reload_lock` flag, and whether `set_display` has attached a display. -/
structure FrameState where
  running : Bool
  images : List String
  index : Nat
  config : Cfg
  reloadLock : Bool
  displaySet : Bool
  deriving DecidableEq, Repr

/-- One iteration of `PhotoFrame._slideshow_loop` (photoframe.py lines
163-217) on a running instance.

* line 163: a stopped instance leaves the loop — state unchanged;
* lines 164-165: an empty playlist breaks the loop — state unchanged;
* lines 168-170: an active `_reload_lock` skips the cycle without advancing;
* lines 174-207: the configuration re-check.  The call at line 175 passes
  the keyword argument `silent`, which `ConfigManager.load_config` does not
  accept, so it raises `TypeError`; the `except` at line 206 swallows it and
  the whole block is a no-op.  The `Except.ok` branch transcribes lines
  176-205 (`newImages` stands for what `load_images` would return after a
  detected change; per lines 197-200 it replaces the playlist and resets the
  index only when non-empty);
* line 210: `show_current_image_now` renders the current image (no state
  change);
* line 213: `current_index = (current_index + 1) % len(current_images)`. -/
def slideshow_tick (disk : Cfg) (newImages : List String) (s : FrameState) :
    FrameState :=
  if s.running = false then s
  else if s.images = [] then s
  else if s.reloadLock then s
  else
    let s1 := match loopConfigCheckCall disk with
      | Except.ok fresh =>
          if configChanged s.config fresh then
            if newImages ≠ [] then
              { s with config := fresh, images := newImages, index := 0 }
            else { s with config := fresh }
          else { s with config := fresh }
      | Except.error _ => s
    { s1 with index := (s1.index + 1) % s1.images.length }

/-- `PhotoFrame.start_slideshow` (photoframe.py lines 134-159).  `loaded` is
the playlist `load_images` returns for the active folder.

* lines 136-138: without a display, return `False` and change nothing;
* line 141: `reload_config`, which on a *running* instance reloads the
  playlist, resets the index and renders (photoframe.py lines 73-77); on a
  stopped instance it only refreshes the configuration, which this model
  keeps constant;
* line 146: `current_images = load_images(...)`;
* lines 147-149: an empty playlist returns `False` (the instance stays
  stopped but keeps the emptied list);
* lines 151-152: `running = True`, `current_index = 0`, return `True`. -/
def start_slideshow (loaded : List String) (s : FrameState) :
    FrameState × Bool :=
  if s.displaySet = false then (s, false)
  else
    let s1 := if s.running then { s with images := loaded, index := 0 } else s
    let s2 := { s1 with images := loaded }
    if loaded = [] then (s2, false)
    else ({ s2 with running := true, index := 0 }, true)

/-- `PhotoFrame.stop_slideshow` (photoframe.py lines 219-224): clears
`running` and joins the thread; no other state changes. -/
def stop_slideshow (s : FrameState) : FrameState :=
  { s with running := false }

/-! ## Playlist loading: `src/lib/photoframe.py` lines 82-132 -/

/-- `pathlib.PurePath.suffix`: the extension of the final path component,
from the last dot onward, empty when there is no dot, when the dot is the
first character, or when it is the last character. -/
def pathSuffix (name : String) : String :=
  let cs := name.toList
  let pre := cs.reverse.takeWhile (fun c => c ≠ '.')
  if pre.length = cs.length then ""
  else if pre.length = 0 then ""
  else if pre.length + 1 = cs.length then ""
  else String.mk ('.' :: pre.reverse)

/-- Python `str.lower()` as applied to the extension strings under
comparison (all ASCII): lower-case each character. -/
def pyLower (s : String) : String :=
  String.mk (s.toList.map Char.toLower)

/-- The extension set of `PhotoFrame.load_images` (photoframe.py line 121):
`image_extensions = {'.jpg', '.jpeg', '.png', '.bmp', '.gif'}`. -/
def image_extensions : List String := [".jpg", ".jpeg", ".png", ".bmp", ".gif"]

/-- The extension set claim C9 states, including `.webp` and `.tiff`.
Follows the spec's words, to be compared with the source. -/
def claimedExtensions : List String :=
  [".jpg", ".jpeg", ".png", ".bmp", ".gif", ".webp", ".tiff"]

/-- The filtering loop of `PhotoFrame.load_images` (photoframe.py lines
124-126): keep the directory entries whose `suffix.lower()` is in
`image_extensions`.  `listing` is the filename sequence `Path(folder).iterdir()`
yields. -/
def load_images_filter (listing : List String) : List String :=
  listing.filter (fun n => image_extensions.contains (pyLower (pathSuffix n)))

/-- `PhotoFrame.load_images` on an existing folder (photoframe.py lines
120-132): filter the listing, then `random.shuffle(images)` — unconditionally,
with no consultation of any shuffle flag.  The shuffle's RNG is modelled by
an arbitrary reordering function `shuffleFn`; theorems about the result hold
for every `shuffleFn` that permutes its input. -/
def load_images (shuffleFn : List String → List String)
    (listing : List String) : List String :=
  shuffleFn (load_images_filter listing)

end Slideshow

/-! ## Legacy scaler: `src/lib/photo_frame.py` lines 85-163 -/

namespace Scaler

/-- A Python value as the `orientation` local of `scale_image_to_screen` can
hold it: the string parameter, an integer EXIF tag, or `None`. -/
inductive PyVal where
  | pstr (s : String)
  | pnat (n : Nat)
  | pnone
  deriving DecidableEq, Repr

/-- Python `==` between the `orientation` variable and an int literal. -/
def pyEqNat : PyVal → Nat → Bool
  | PyVal.pnat m, n => m = n
  | _, _ => false

/-- Python `==` between the `orientation` variable and a string literal. -/
def pyEqStr : PyVal → String → Bool
  | PyVal.pstr t, s => t = s
  | _, _ => false

/-- The rotations `PhotoFrame.scale_image_to_screen`
(photo_frame.py lines 99-122) applies to the decoded image, in order.

`exifDict` models `image._getexif()` as observed inside the `try` of lines
103-116: `none` when the image has no EXIF data or the read raises (the
`except` at line 114 skips the whole block), `some o` when a dict is present
and `exif.get(0x0112)` returns `o` (`none` for a missing tag).

The source assigns that result to the variable `orientation` — the SAME name
as the panel-orientation parameter (line 107) — so when EXIF data is present
the parameter is shadowed before the panel-rotation test of line 119 runs. -/
def scale_image_rotations (orientationParam : String) (rotate_180 : Bool)
    (exifDict : Option (Option Nat)) : List Nat :=
  let orientationVar : PyVal :=
    match exifDict with
    | none => PyVal.pstr orientationParam
    | some none => PyVal.pnone
    | some (some v) => PyVal.pnat v
  let exifRots : List Nat :=
    match exifDict with
    | none => []
    | some _ =>
        if pyEqNat orientationVar 3 then [180]
        else if pyEqNat orientationVar 6 then [270]
        else if pyEqNat orientationVar 8 then [90]
        else []
  let panelRots : List Nat :=
    if pyEqStr orientationVar "Landscape" then [90]
    else if rotate_180 then [180]
    else []
  exifRots ++ panelRots

end Scaler

/-! ## Theorems -/

namespace Display

/-- Claim C2, counterexample: for the Landscape orientation the compositor
rotates 270 and then force-resizes to the LANDSCAPE canvas `(480, 320)`
(display.py lines 425 and 452), not to the portrait-style `(320, 480)` the
claim states; the two results differ on a concrete 100x50 source image. -/
theorem c2_landscape_resize_counterexample :
    prepare_image_for_display "Landscape" false noFail (PImage.src 100 50)
        = PImage.resize 480 320 (PImage.rotate 270 (PImage.src 100 50))
    ∧ prepare_image_for_display "Landscape" false noFail (PImage.src 100 50)
        ≠ prepareLandscapeSpec false (PImage.src 100 50) := by
  exact ⟨rfl, by decide⟩

/-- Claim C2, amended: when the target orientation is Landscape and no
transform raises, the compositor first rotates the source 270 degrees and
then force-resizes it to the landscape canvas dimensions 480x320 (applying
the 180-degree inverse flip last when configured), for every source image. -/
theorem c2_landscape_resize_amended (inverse : Bool) (img : PImage) :
    prepare_image_for_display "Landscape" inverse noFail img
      = if inverse then PImage.rotate 180 (PImage.resize 480 320 (PImage.rotate 270 img))
        else PImage.resize 480 320 (PImage.rotate 270 img) := by
  cases inverse <;> rfl

/-- Claim C3, counterexample: when both the compose block and the fallback
resize raise (a truncated file makes PIL raise at every pixel access), the
compositor returns the original image untouched, whose size 100x50 is not
the target (320, 480); so the size guarantee of the claim does not hold in
every case. -/
theorem c3_size_counterexample :
    prepare_image_for_display "Portrait" false ⟨false, true, true⟩ (PImage.src 100 50)
        = PImage.src 100 50
    ∧ dims (prepare_image_for_display "Portrait" false ⟨false, true, true⟩
        (PImage.src 100 50)) ≠ (320, 480) := by
  exact ⟨rfl, by decide⟩

/-- Claim C3, amended: the compositor never propagates an exception (the
embedding is a total function covering every failure configuration of the
guarded blocks), and the outcome is characterised exactly by the failure
flags: when the compose step and the final fallback resize both raise it
returns the original image untouched (the spec's own last resort); in every
other failure configuration — including a failing compose step whose
fallback resize succeeds, and a failing rotate — the returned image has
exactly the target size. -/
theorem c3_always_target_size_or_original (o : String) (inverse : Bool)
    (f : PrepFlags) (img : PImage) :
    (f.mainFails = true ∧ f.fallbackFails = true
        → prepare_image_for_display o inverse f img = img)
    ∧ (f.mainFails = false ∨ f.fallbackFails = false
        → dims (prepare_image_for_display o inverse f img)
            = (if o = "Landscape" then (480, 320) else (320, 480))) := by
  obtain ⟨fr, fm, fb⟩ := f
  refine ⟨fun h => ?_, fun h => ?_⟩
  · obtain ⟨h1, h2⟩ := h
    cases fm
    · exact absurd h1 (by simp)
    · cases fb
      · exact absurd h2 (by simp)
      · rfl
  · cases fm
    · by_cases ho : o = "Landscape" <;> cases fb <;> cases inverse <;>
        simp [prepare_image_for_display, dims, ho]
    · cases fb
      · by_cases ho : o = "Landscape" <;> cases inverse <;>
          simp [prepare_image_for_display, dims, ho]
      · rcases h with h | h <;> exact absurd h (by simp)

/-- Claim C3, witness for the amended theorem: with a failing compose step
but a succeeding fallback resize, a 100x50 portrait source still comes back
at exactly the target size (320, 480). -/
theorem c3_always_target_size_or_original_witness :
    dims (prepare_image_for_display "Portrait" false ⟨false, true, false⟩
        (PImage.src 100 50)) = (320, 480) :=
  (c3_always_target_size_or_original "Portrait" false ⟨false, true, false⟩
    (PImage.src 100 50)).2 (Or.inr rfl)

/-- Claim C8: the overlay renderer is a total function (every fallible PIL
operation in the source is guarded with a local fallback), and when
`show_time` is false the text list is empty and the input frame is returned
unmodified, for every orientation, failure configuration and input image. -/
theorem c8_overlay_identity_when_no_time (f : OverlayFlags) (orientation : String)
    (show_date : Bool) (timeStr : String) (image : PImage) :
    add_text_overlay f orientation false show_date timeStr image = image := rfl

/-- Claim C10: with the LCD handle unset (`self.lcd` is `None`), both
`display_image` and `display_image_with_overlay` return `False` immediately
with an empty effect trace: no image is opened, nothing is prepared, and the
display sink is never contacted. -/
theorem c10_uninitialized_returns_false (orientation : String) (inverse : Bool)
    (pf : PrepFlags) (ovf : OverlayFlags) (sf : SendFlags) (lcdW lcdH : Nat)
    (path : String) (img : PImage) (show_time show_date : Bool) (timeStr : String) :
    display_image false orientation inverse pf sf lcdW lcdH path img = (false, [])
    ∧ display_image_with_overlay false orientation inverse pf ovf sf lcdW lcdH
        path img show_time show_date timeStr = (false, []) := by
  exact ⟨rfl, rfl⟩

end Display

namespace Serialize

/-- Claim C5, counterexample: for the pixel `(r, g, b, a) = (0, 0, 0, 16)`
the source's second output byte is `0 & 0xFC | ((16 >> 4) & 2) = 0`, while
the claim's packing (low TWO bits of the 4-bit alpha, mask `& 3`) gives 1:
the code keeps only bit 1 of the 4-bit alpha in the G byte and drops its
lowest bit. -/
theorem c5_alpha_mask_counterexample :
    image_to_compressed_BGRA [(0, 0, 0, 16)] = [0, 0, 0]
    ∧ compressedBGRAPixelBytesSpec 0 0 0 16 = [0, 1, 0]
    ∧ compressedBGRAPixelBytes 0 0 0 16 ≠ compressedBGRAPixelBytesSpec 0 0 0 16 := by
  exact ⟨rfl, rfl, by decide⟩

end Serialize

namespace Scaler

/-- Claim C6: the presence of an EXIF orientation tag changes whether the
panel-orientation rotation is applied, because line 107 of photo_frame.py
assigns the tag to the variable named `orientation`, shadowing the panel
orientation parameter.  With the parameter `'Landscape'` and `rotate_180 =
False`: an image without EXIF data gets the panel rotation `[90]`, while an
identical image carrying EXIF tag 3 gets only the corrective `[180]` — the
`orientation == 'Landscape'` test at line 119 then compares the integer 3
against a string and the 90-degree panel rotation is silently dropped,
contradicting the claimed independence. -/
theorem c6_exif_shadowing_breaks_independence :
    scale_image_rotations "Landscape" false none = [90]
    ∧ scale_image_rotations "Landscape" false (some (some 3)) = [180]
    ∧ scale_image_rotations "Landscape" false none
        ≠ scale_image_rotations "Landscape" false (some (some 3)) := by
  exact ⟨rfl, rfl, by decide⟩

end Scaler

namespace Slideshow

/-- Claim C7: the per-tick configuration re-check can never detect a change.
The call at photoframe.py line 175 passes the keyword argument `silent`,
which `ConfigManager.load_config` (config_manager.py line 18) does not
accept, so every tick raises `TypeError` inside the guarded block and the
`except` at line 206 swallows it.  Concretely: with the slideshow running on
a three-image portrait playlist at index 1 and the on-disk orientation
changed to Landscape, the next tick leaves the playlist unchanged and moves
the index to 2 instead of reloading and resetting it to 0 — even though the
change test itself would have reported a change had the call succeeded. -/
theorem c7_tick_never_detects_config_change :
    loopConfigCheckCall ⟨⟨some "Landscape", some "p", some "l"⟩⟩
        = Except.error "TypeError"
    ∧ slideshow_tick ⟨⟨some "Landscape", some "p", some "l"⟩⟩ ["l1.jpg", "l2.jpg"]
        ⟨true, ["a.jpg", "b.jpg", "c.jpg"], 1, ⟨⟨some "Portrait", some "p", some "l"⟩⟩,
          false, true⟩
        = ⟨true, ["a.jpg", "b.jpg", "c.jpg"], 2, ⟨⟨some "Portrait", some "p", some "l"⟩⟩,
          false, true⟩
    ∧ configChanged ⟨⟨some "Portrait", some "p", some "l"⟩⟩
        ⟨⟨some "Landscape", some "p", some "l"⟩⟩ = true := by
  exact ⟨rfl, rfl, rfl⟩

/-- Claim C9, counterexample: the playlist filter of
`PhotoFrame.load_images` keeps only `{.jpg, .jpeg, .png, .bmp, .gif}`
(photoframe.py line 121): files with the claimed extensions `.tiff` and
`.webp` are excluded from a concrete listing although the claim includes
both in the admitted set. -/
theorem c9_extension_set_counterexample :
    load_images_filter ["holiday.tiff", "pic.webp", "photo.jpg"] = ["photo.jpg"]
    ∧ claimedExtensions.contains (pyLower (pathSuffix "holiday.tiff")) = true
    ∧ claimedExtensions.contains (pyLower (pathSuffix "pic.webp")) = true := by
  exact ⟨by decide, by decide, by decide⟩

/-- Claim C9, amended: building the playlist enumerates exactly the files
whose extensions are in `{.jpg, .jpeg, .png, .bmp, .gif}` matched
case-insensitively, and the result is always shuffled — an arbitrary
permutation of the filtered listing; the configuration's shuffle flag is
not consulted. -/
theorem c9_filter_and_shuffle (listing : List String)
    (shuffleFn : List String → List String)
    (hperm : ∀ l, List.Perm (shuffleFn l) l) :
    List.Perm (load_images shuffleFn listing) (load_images_filter listing)
    ∧ ∀ n, n ∈ load_images shuffleFn listing
        ↔ n ∈ listing ∧ pyLower (pathSuffix n) ∈ image_extensions := by
  refine ⟨hperm _, fun n => ?_⟩
  unfold load_images
  rw [List.Perm.mem_iff (hperm _)]
  simp [load_images_filter, List.mem_filter, List.contains, List.elem_iff]

/-- Claim C9, witness for the amended theorem: the identity permutation is a
valid shuffle; on the listing `["a.JPG", "b.txt"]` the loaded playlist is a
permutation of the filtered listing. -/
theorem c9_filter_and_shuffle_witness :
    List.Perm (load_images id ["a.JPG", "b.txt"])
      (load_images_filter ["a.JPG", "b.txt"]) :=
  (c9_filter_and_shuffle ["a.JPG", "b.txt"] id (fun l => List.Perm.refl l)).1

end Slideshow

namespace Slideshow

/-- Helper: the per-tick configuration re-check call raises `TypeError` for
every on-disk configuration (the `silent` keyword argument is not a
parameter of `ConfigManager.load_config`). -/
theorem loopConfigCheckCall_error (disk : Cfg) :
    loopConfigCheckCall disk = Except.error "TypeError" := rfl

/-- Claim C4: for every playlist with length L greater than zero, starting
the slideshow succeeds and sets the current index to 0; each tick of the
running loop advances it by `index := (index + 1) % L`, so after N ticks
from a fresh start the index equals `N % L`; and `stop()` followed by
`start()` resets the index to 0 again. -/
theorem c4_slideshow_index_invariant (playlist newImages : List String)
    (disk : Cfg) (s0 : FrameState) (hd : s0.displaySet = true)
    (hr : s0.running = false) (hl : s0.reloadLock = false)
    (hp : playlist ≠ []) :
    (start_slideshow playlist s0).2 = true
    ∧ (start_slideshow playlist s0).1.index = 0
    ∧ ∀ N : Nat,
        ((slideshow_tick disk newImages)^[N] (start_slideshow playlist s0).1).index
          = N % playlist.length
        ∧ (start_slideshow playlist (stop_slideshow
            ((slideshow_tick disk newImages)^[N]
              (start_slideshow playlist s0).1))).1.index = 0 := by
  obtain ⟨r0, is0, i0, c0, l0, d0⟩ := s0
  simp only [FrameState.displaySet] at hd
  simp only [FrameState.running] at hr
  simp only [FrameState.reloadLock] at hl
  subst hd; subst hr; subst hl
  have hstart : start_slideshow playlist
      (FrameState.mk false is0 i0 c0 false true)
      = ({ running := true, images := playlist, index := 0, config := c0,
           reloadLock := false, displaySet := true }, true) := by
    simp [start_slideshow, hp]
  have key : ∀ N : Nat, (slideshow_tick disk newImages)^[N]
      { running := true, images := playlist, index := 0, config := c0,
        reloadLock := false, displaySet := true }
      = { running := true, images := playlist, index := N % playlist.length,
          config := c0, reloadLock := false, displaySet := true } := by
    intro N
    induction N with
    | zero => simp
    | succ n ih =>
      rw [Function.iterate_succ_apply', ih]
      simp [slideshow_tick, hp, loopConfigCheckCall_error, Nat.mod_add_mod]
  refine ⟨by simp [hstart], by simp [hstart], fun N => ⟨?_, ?_⟩⟩
  · simp [hstart, key]
  · simp [hstart, key, stop_slideshow, start_slideshow, hp]

/-- Claim C4, witness: starting from a stopped instance on a three-image
playlist, four ticks move the index to `4 % 3 = 1`. -/
theorem c4_slideshow_index_invariant_witness :
    ((slideshow_tick ⟨⟨some "Landscape", none, none⟩⟩ [])^[4]
      (start_slideshow ["x.jpg", "y.jpg", "z.jpg"]
        ⟨false, [], 7, ⟨⟨some "Portrait", none, none⟩⟩, false, true⟩).1).index
      = 4 % 3 :=
  ((c4_slideshow_index_invariant ["x.jpg", "y.jpg", "z.jpg"] []
    ⟨⟨some "Landscape", none, none⟩⟩
    ⟨false, [], 7, ⟨⟨some "Portrait", none, none⟩⟩, false, true⟩
    rfl rfl rfl (by decide)).2.2 4).1

end Slideshow

namespace Serialize

/-- Helper: the source's shift-and-or packing of the quantized 5/6/5 fields
equals the specification's positional sum, for all field values in range. -/
theorem rgb565_pack_bridge : ∀ r5 < 32, ∀ g6 < 64, ∀ b5 < 32,
    (r5 <<< 11) ||| (g6 <<< 5) ||| b5 = r5 * 2 ^ 11 + g6 * 2 ^ 5 + b5 := by decide

/-- Helper: masking with `0xFF` is reduction modulo 256. -/
theorem nat_and_255_eq_mod (v : Nat) : v &&& 255 = v % 256 := by
  have h : (255 : Nat) = 2 ^ 8 - 1 := by norm_num
  rw [h, Nat.and_pow_two_sub_one_eq_mod]

/-- Helper: shifting right by 8 is division by 256. -/
theorem nat_shiftRight8_eq_div (v : Nat) : v >>> 8 = v / 256 := by
  rw [Nat.shiftRight_eq_div_pow]

/-- Helper: dropping past a length-2 block of an append. -/
theorem drop_two_append (l1 l2 : List Nat) (h : l1.length = 2) (j : Nat) :
    (l1 ++ l2).drop (2 + j) = l2.drop j := by
  rw [← h]
  exact List.drop_append j

/-- Helper: the two bytes the source emits for one 8-bit RGB pixel are the
high and low byte of the specification's packed 16-bit value, ordered by the
requested endianness. -/
theorem rgb565PixelBytes_spec (e : String) (r g b : Nat)
    (hr : r ≤ 255) (hg : g ≤ 255) (hb : b ≤ 255) :
    rgb565PixelBytes e r g b
      = if e = "little"
        then [rgb565SpecValue r g b % 256, rgb565SpecValue r g b / 256]
        else [rgb565SpecValue r g b / 256, rgb565SpecValue r g b % 256] := by
  have hr5 : r * 31 / 255 < 32 := by omega
  have hg6 : g * 63 / 255 < 64 := by omega
  have hb5 : b * 31 / 255 < 32 := by omega
  have hv : rgb565Value r g b = rgb565SpecValue r g b := by
    have hpack := rgb565_pack_bridge (r * 31 / 255) hr5 (g * 63 / 255) hg6
      (b * 31 / 255) hb5
    simpa [rgb565Value, rgb565SpecValue] using hpack
  have hlt : rgb565SpecValue r g b < 65536 := by
    have e11 : (2 : Nat) ^ 11 = 2048 := by norm_num
    have e5 : (2 : Nat) ^ 5 = 32 := by norm_num
    unfold rgb565SpecValue
    rw [e11, e5]
    omega
  have hdiv : rgb565SpecValue r g b / 256 < 256 := by omega
  simp only [rgb565PixelBytes, hv, nat_and_255_eq_mod, nat_shiftRight8_eq_div,
    Nat.mod_eq_of_lt hdiv]

/-- Helper: each pixel contributes exactly two bytes. -/
theorem rgb565PixelBytes_length (e : String) (r g b : Nat) :
    (rgb565PixelBytes e r g b).length = 2 := by
  unfold rgb565PixelBytes
  split <;> rfl

/-- Helper: the output length is twice the pixel count. -/
theorem image_to_RGB565_length (ps : List (Nat × Nat × Nat)) (e : String) :
    (image_to_RGB565 ps e).length = 2 * ps.length := by
  induction ps with
  | nil => rfl
  | cons p ps ih =>
    obtain ⟨r, g, b⟩ := p
    simp [image_to_RGB565, rgb565PixelBytes_length, ih]
    omega

/-- Helper: the two bytes at offset `2 * i` of the output are the bytes of
pixel `i`. -/
theorem image_to_RGB565_window (ps : List (Nat × Nat × Nat)) (e : String)
    (i : Fin ps.length) :
    ((image_to_RGB565 ps e).drop (2 * i.val)).take 2
      = rgb565PixelBytes e (ps.get i).1 (ps.get i).2.1 (ps.get i).2.2 := by
  induction ps with
  | nil => exact absurd i.isLt (by simp)
  | cons p ps ih =>
    obtain ⟨r, g, b⟩ := p
    rcases i with ⟨iv, hlt⟩
    cases iv with
    | zero =>
      simp only [image_to_RGB565, Nat.mul_zero, List.drop_zero]
      rw [← rgb565PixelBytes_length e r g b]
      exact List.take_left _ _
    | succ j =>
      have hj : j < ps.length := by simpa using hlt
      have h2 : 2 * (j + 1) = 2 + 2 * j := by omega
      simp only [image_to_RGB565, h2]
      rw [drop_two_append _ _ (rgb565PixelBytes_length e r g b)]
      exact ih ⟨j, hj⟩

/-- Claim C1: for every input bitmap of 8-bit RGB pixels, the RGB565 encoder
emits exactly 2 bytes per pixel; the two bytes at offset `2 * i` are the high
and low byte (ordered by the requested endianness: big means high byte
first) of the 16-bit value obtained by truncating integer division
`r * 31 / 255`, `g * 63 / 255`, `b * 31 / 255` packed at bit offsets 11, 5
and 0; and the pure colors red, green and blue encode to `0xF800`, `0x07E0`
and `0x001F`. -/
theorem c1_rgb565_encoding (pixels : List (Nat × Nat × Nat)) (e : String)
    (h8 : ∀ p ∈ pixels, p.1 ≤ 255 ∧ p.2.1 ≤ 255 ∧ p.2.2 ≤ 255) :
    (image_to_RGB565 pixels e).length = 2 * pixels.length
    ∧ (∀ i : Fin pixels.length,
        ((image_to_RGB565 pixels e).drop (2 * i.val)).take 2
          = if e = "little"
            then [rgb565SpecValue (pixels.get i).1 (pixels.get i).2.1 (pixels.get i).2.2 % 256,
                  rgb565SpecValue (pixels.get i).1 (pixels.get i).2.1 (pixels.get i).2.2 / 256]
            else [rgb565SpecValue (pixels.get i).1 (pixels.get i).2.1 (pixels.get i).2.2 / 256,
                  rgb565SpecValue (pixels.get i).1 (pixels.get i).2.1 (pixels.get i).2.2 % 256])
    ∧ rgb565Value 255 0 0 = 0xF800 ∧ rgb565Value 0 255 0 = 0x07E0
    ∧ rgb565Value 0 0 255 = 0x001F := by
  refine ⟨image_to_RGB565_length pixels e, fun i => ?_, by decide, by decide, by decide⟩
  have hmem : pixels.get i ∈ pixels := pixels.get_mem i.val i.isLt
  obtain ⟨hr, hg, hb⟩ := h8 _ hmem
  rw [image_to_RGB565_window, rgb565PixelBytes_spec e _ _ _ hr hg hb]

/-- Claim C1, witness: the three pure-color pixels encode to six bytes. -/
theorem c1_rgb565_encoding_witness :
    (image_to_RGB565 [(255, 0, 0), (0, 255, 0), (0, 0, 255)] "big").length = 2 * 3 :=
  (c1_rgb565_encoding [(255, 0, 0), (0, 255, 0), (0, 0, 255)] "big" (by decide)).1

/-- Helper: masking an 8-bit value with `0xFC` keeps its top 6 bits. -/
theorem byte_mask_FC : ∀ b < 256, b &&& 0xFC = 4 * (b / 4) := by decide

/-- Helper: the top 2 of the 4 high alpha bits. -/
theorem alpha_top2 : ∀ a < 256, (a >>> 4) >>> 2 = a / 64 := by decide

/-- Helper: masking the 4 high alpha bits with 2 keeps only their bit 1. -/
theorem alpha_bit1 : ∀ a < 256, (a >>> 4) &&& 2 = 2 * (a / 32 % 2) := by decide

/-- Helper: or-ing a multiple of 4 with a value below 4 is addition. -/
theorem or_low2 : ∀ y < 64, ∀ x < 4, (4 * y) ||| x = 4 * y + x := by decide

/-- Helper: the three bytes the source emits for one RGBA pixel, written in
plain positional arithmetic: top 6 bits of B plus the top 2 of the 4 high
alpha bits; top 6 bits of G plus twice bit 1 of the 4 high alpha bits (the
lowest of the 4 alpha bits is dropped by the source's `& 2` mask); R. -/
theorem compressedBGRAPixelBytes_spec_eq (r g b a : Nat)
    (hg : g ≤ 255) (hb : b ≤ 255) (ha : a ≤ 255) :
    compressedBGRAPixelBytes r g b a
      = [4 * (b / 4) + a / 64, 4 * (g / 4) + 2 * (a / 32 % 2), r] := by
  have h1 := byte_mask_FC b (by omega)
  have h2 := byte_mask_FC g (by omega)
  have h3 := alpha_top2 a (by omega)
  have h4 := alpha_bit1 a (by omega)
  have h5 := or_low2 (b / 4) (by omega) (a / 64) (by omega)
  have h6 := or_low2 (g / 4) (by omega) (2 * (a / 32 % 2)) (by omega)
  simp only [compressedBGRAPixelBytes, h1, h2, h3, h4, h5, h6]

/-- Helper: each pixel contributes exactly three bytes. -/
theorem compressedBGRAPixelBytes_length (r g b a : Nat) :
    (compressedBGRAPixelBytes r g b a).length = 3 := rfl

/-- Helper: the output length is three times the pixel count. -/
theorem image_to_compressed_BGRA_length (ps : List (Nat × Nat × Nat × Nat)) :
    (image_to_compressed_BGRA ps).length = 3 * ps.length := by
  induction ps with
  | nil => rfl
  | cons p ps ih =>
    obtain ⟨r, g, b, a⟩ := p
    simp [image_to_compressed_BGRA, compressedBGRAPixelBytes_length, ih]
    omega

/-- Helper: dropping past a length-3 block of an append. -/
theorem drop_three_append (l1 l2 : List Nat) (h : l1.length = 3) (j : Nat) :
    (l1 ++ l2).drop (3 + j) = l2.drop j := by
  rw [← h]
  exact List.drop_append j

/-- Helper: the three bytes at offset `3 * i` of the output are the bytes of
pixel `i`. -/
theorem image_to_compressed_BGRA_window (ps : List (Nat × Nat × Nat × Nat))
    (i : Fin ps.length) :
    ((image_to_compressed_BGRA ps).drop (3 * i.val)).take 3
      = compressedBGRAPixelBytes (ps.get i).1 (ps.get i).2.1 (ps.get i).2.2.1
          (ps.get i).2.2.2 := by
  induction ps with
  | nil => exact absurd i.isLt (by simp)
  | cons p ps ih =>
    obtain ⟨r, g, b, a⟩ := p
    rcases i with ⟨iv, hlt⟩
    cases iv with
    | zero =>
      simp only [image_to_compressed_BGRA, Nat.mul_zero, List.drop_zero]
      rw [← compressedBGRAPixelBytes_length r g b a]
      exact List.take_left _ _
    | succ j =>
      have hj : j < ps.length := by simpa using hlt
      have h3 : 3 * (j + 1) = 3 + 3 * j := by omega
      simp only [image_to_compressed_BGRA, h3]
      rw [drop_three_append _ _ (compressedBGRAPixelBytes_length r g b a)]
      exact ih ⟨j, hj⟩

/-- Claim C5, amended: the compressed-BGRA encoder emits exactly 3 bytes per
pixel; the first keeps the top 6 bits of B plus the top 2 of the 4 high
alpha bits, the second keeps the top 6 bits of G plus ONLY bit 1 of the 4
high alpha bits in its output bit 1 (the source masks with `& 2`, so the
lowest of the 4 alpha bits is dropped and output bit 0 of that byte is
always 0), and the third byte is R at full precision. -/
theorem c5_compressed_bgra_amended (pixels : List (Nat × Nat × Nat × Nat))
    (h8 : ∀ p ∈ pixels, p.2.1 ≤ 255 ∧ p.2.2.1 ≤ 255 ∧ p.2.2.2 ≤ 255) :
    (image_to_compressed_BGRA pixels).length = 3 * pixels.length
    ∧ ∀ i : Fin pixels.length,
        ((image_to_compressed_BGRA pixels).drop (3 * i.val)).take 3
          = [4 * ((pixels.get i).2.2.1 / 4) + (pixels.get i).2.2.2 / 64,
             4 * ((pixels.get i).2.1 / 4) + 2 * ((pixels.get i).2.2.2 / 32 % 2),
             (pixels.get i).1] := by
  refine ⟨image_to_compressed_BGRA_length pixels, fun i => ?_⟩
  have hmem : pixels.get i ∈ pixels := pixels.get_mem i.val i.isLt
  obtain ⟨hg, hb, ha⟩ := h8 _ hmem
  rw [image_to_compressed_BGRA_window, compressedBGRAPixelBytes_spec_eq _ _ _ _ hg hb ha]

/-- Claim C5, witness for the amended theorem: a single opaque pixel yields
three bytes. -/
theorem c5_compressed_bgra_amended_witness :
    (image_to_compressed_BGRA [(10, 20, 30, 255)]).length = 3 * 1 :=
  (c5_compressed_bgra_amended [(10, 20, 30, 255)] (by decide)).1

end Serialize
